import Mathlib

/-!
Verification of the SierraWings drone fleet communication layer
(`drone_controller.py`): the JSON message model, the drone registry with
its 30-second liveness TTL, announce ingestion, command dispatch, and the
command send path, together with the wire codec round-trip.

Machine-level conventions of the shallow embedding:
JSON values are modelled by the inductive `Json`; Python `dict`s keyed by
drone identifiers become association lists; wall-clock timestamps become
rationals (seconds); network effects of `send_command_to_drone` are
returned explicitly as a list of `SendEffect`s, and the network's
behaviour (a reply, or a timeout / socket error / malformed reply, which
all surface as a caught exception) is an explicit `NetOutcome` argument.
-/

/-- JSON values as produced by `json.loads` and consumed by `json.dumps`,
restricted to the shapes the discovery protocol exchanges: null, booleans,
integers, strings and string-keyed objects. -/
inductive Json where
  | null
  | bool (b : Bool)
  | num (n : Int)
  | str (s : String)
  | obj (kvs : List (String × Json))
deriving Repr

mutual

/-- Structural boolean equality on `Json`. -/
def Json.beq : Json → Json → Bool
  | .null, .null => true
  | .bool a, .bool b => a = b
  | .num a, .num b => a = b
  | .str a, .str b => a = b
  | .obj a, .obj b => beqKVs a b
  | _, _ => false

/-- Structural boolean equality on JSON object member lists. -/
def beqKVs (xs ys : List (String × Json)) : Bool :=
  match xs, ys with
  | [], [] => true
  | (k1, v1) :: r1, (k2, v2) :: r2 => k1 = k2 && Json.beq v1 v2 && beqKVs r1 r2
  | _, _ => false

end

mutual

theorem Json.beq_iff : ∀ a b : Json, Json.beq a b = true ↔ a = b
  | .null, .null => by simp [Json.beq]
  | .bool _, .bool _ => by simp [Json.beq]
  | .num _, .num _ => by simp [Json.beq]
  | .str _, .str _ => by simp [Json.beq]
  | .obj a, .obj b => by
      simp only [Json.beq, beqKVs_iff a b, Json.obj.injEq]
  | .null, .bool _ | .null, .num _ | .null, .str _ | .null, .obj _
  | .bool _, .null | .bool _, .num _ | .bool _, .str _ | .bool _, .obj _
  | .num _, .null | .num _, .bool _ | .num _, .str _ | .num _, .obj _
  | .str _, .null | .str _, .bool _ | .str _, .num _ | .str _, .obj _
  | .obj _, .null | .obj _, .bool _ | .obj _, .num _ | .obj _, .str _ => by
      simp [Json.beq]

theorem beqKVs_iff : ∀ a b : List (String × Json), beqKVs a b = true ↔ a = b
  | [], [] => by simp [beqKVs]
  | (_, v1) :: r1, (_, v2) :: r2 => by
      simp [beqKVs, Json.beq_iff v1 v2, beqKVs_iff r1 r2, and_assoc]
  | [], _ :: _ => by simp [beqKVs]
  | _ :: _, [] => by simp [beqKVs]

end

instance : DecidableEq Json := fun a b =>
  decidable_of_iff (Json.beq a b = true) (Json.beq_iff a b)

/-- Python's `message.get(key)` on a parsed JSON message: `none` when the
key is absent or the value is not a dict (a non-dict raises in Python, which
the listener loop catches and turns into a dropped datagram, observably the
same as ignoring the message). -/
def Json.get : Json → String → Option Json
  | .obj kvs, k => (kvs.find? (fun kv => kv.1 = k)).map (·.2)
  | _, _ => none

/-- Python's `message.get(key, default)`: the default is used only when the
key is absent. -/
def Json.getD (j : Json) (k : String) (d : Json) : Json :=
  (j.get k).getD d

/-- Python truthiness of a JSON value: `None`, `False`, `0`, `""` and the
empty dict are falsy. -/
def Json.truthy : Json → Bool
  | .null => false
  | .bool b => b
  | .num n => n ≠ 0
  | .str s => s ≠ ""
  | .obj kvs => kvs ≠ []

/-- Python truthiness of the result of `message.get(key)` (where absence
gives `None`, which is falsy). -/
def optTruthy : Option Json → Bool
  | none => false
  | some j => j.truthy

/-- A datagram sender address as returned by `socket.recvfrom`: host
string and source port. -/
abbrev Addr := String × Int

/-- A registry entry, mirroring the dict built at
`drone_controller.py` lines 98 to 111.  Fields copied from the announce
payload keep their raw JSON value (Python stores whatever the payload
carried); `address` is the host part of the socket source address, and
`last_seen` is the wall-clock time (seconds) of the announce. -/
structure DroneRecord where
  id : Json
  name : Json
  address : String
  port : Json
  status : Json
  battery_voltage : Json
  gps_fix : Json
  flight_mode : Json
  armed : Json
  signal_strength : Json
  last_seen : ℚ
  firmware_version : Json
deriving DecidableEq, Repr

/-- The `discovered_drones` dict: an association list from drone
identifier (the raw JSON value of the `drone_id` field) to its record. -/
abbrev Registry := List (Json × DroneRecord)

/-- Dict lookup `discovered_drones[drone_id]` / `drone_id in discovered_drones`. -/
def Registry.lookup (reg : Registry) (k : Json) : Option DroneRecord :=
  (reg.find? (fun kv => kv.1 = k)).map (·.2)

/-- Dict assignment `discovered_drones[drone_id] = record`: the binding for
`k` is replaced (at most one binding per key survives). -/
def Registry.insert (reg : Registry) (k : Json) (r : DroneRecord) : Registry :=
  (k, r) :: reg.filter (fun kv => kv.1 ≠ k)

/-- Number of registry entries carrying identifier `k`. -/
def Registry.countKey (reg : Registry) (k : Json) : Nat :=
  (reg.filter (fun kv => kv.1 = k)).length

/-- The fresh record built by `_handle_drone_announcement` from the payload
`msg`, the datagram source address `addr` and the current time `now`
(`drone_controller.py` lines 98 to 111).  The stored `address` is
`addr[0]`, the socket source host; it is never read from the payload. -/
def mkDroneRecord (msg : Json) (addr : Addr) (droneId : Json) (now : ℚ) : DroneRecord where
  id := droneId
  name := msg.getD "name" droneId
  address := addr.1
  port := msg.getD "port" (Json.num 14550)
  status := msg.getD "pixhawk_status" (Json.str "unknown")
  battery_voltage := msg.getD "battery_voltage" (Json.num 0)
  gps_fix := msg.getD "gps_fix" (Json.bool false)
  flight_mode := msg.getD "flight_mode" (Json.str "unknown")
  armed := msg.getD "armed" (Json.bool false)
  signal_strength := msg.getD "signal_strength" (Json.num 0)
  last_seen := now
  firmware_version := msg.getD "firmware_version" (Json.str "unknown")

/-- The announce handler `_handle_drone_announcement` (lines 94 to 113):
when the payload's `drone_id` is truthy, the registry binding for it is
overwritten with a freshly built record; otherwise nothing happens. -/
def handle_drone_announcement (msg : Json) (addr : Addr) (now : ℚ) (reg : Registry) : Registry :=
  match msg.get "drone_id" with
  | some droneId =>
      if droneId.truthy then reg.insert droneId (mkDroneRecord msg addr droneId now)
      else reg
  | none => reg

/-- The snapshot operation `get_discovered_drones` (lines 172 to 186):
entries whose `last_seen` lies strictly more than 30 seconds in the past
are deleted, and the surviving registry is returned (the code returns a
copy of the pruned dict, so the returned mapping and the post-state are
equal). -/
def get_discovered_drones (now : ℚ) (reg : Registry) : Registry :=
  reg.filter (fun kv => ¬ (now - kv.2.last_seen > 30))

/-- The seven command names registered by `_setup_command_handlers`
(lines 36 to 46). -/
def command_handlers : List String :=
  ["arm", "disarm", "takeoff", "land", "return_to_launch", "goto_location", "get_telemetry"]

/-- The inbound command relay `_handle_drone_command` (lines 115 to 135).
`exec` abstracts the registered handler bodies (each of which performs
network I/O toward the target drone); the function returns the
`command_response` datagram sent back to the sender, or `none` when no
response is produced.  A command name that is not a key of
`command_handlers` falls through the `if` without any effect. -/
def handle_drone_command (exec : String → Option Json → Json → Json)
    (msg : Json) (ts : String) : Option Json :=
  let command := msg.get "command"
  let droneId := msg.get "target_drone"
  match command with
  | some (Json.str c) =>
      if c ∈ command_handlers then
        some (Json.obj
          [("type", Json.str "command_response"),
           ("drone_id", droneId.getD Json.null),
           ("command", Json.str c),
           ("result", exec c droneId (msg.getD "params" (Json.obj []))),
           ("timestamp", Json.str ts)])
      else none
  | _ => none

/-- Outcome of the ephemeral-socket exchange inside
`send_command_to_drone`: either a decoded reply arrives, or some step
(send, 5-second receive timeout, or `json.loads` on a malformed reply)
raises an exception carrying message `e`, which the surrounding
`except` block catches. -/
inductive NetOutcome where
  | reply (data : Json)
  | exn (e : String)

/-- A datagram actually handed to the network: destination (host and the
raw `port` field of the registry record) and payload. -/
structure SendEffect where
  dest : String × Json
  payload : Json
deriving DecidableEq, Repr

/-- The command message dict built at `drone_controller.py`
lines 146 to 152. -/
def mkCommandMsg (droneId : Json) (command : String) (params : Json) (ts : String) : Json :=
  Json.obj
    [("type", Json.str "command"),
     ("command", Json.str command),
     ("target_drone", droneId),
     ("params", if params.truthy then params else Json.obj []),
     ("timestamp", Json.str ts)]

/-- `send_command_to_drone` (lines 137 to 170).  Unknown identifier: an
early structured failure with no network effect.  Otherwise one datagram
is sent to the recorded address and the result is the reply's `result`
field (defaulting to success), or a structured failure built from the
caught exception's message.  The function is total: no exception escapes. -/
def send_command_to_drone (reg : Registry) (net : NetOutcome) (droneId : Json)
    (command : String) (params : Json) (ts : String) : Json × List SendEffect :=
  match reg.lookup droneId with
  | none => (Json.obj [("success", Json.bool false), ("error", Json.str "Drone not found")], [])
  | some info =>
      let commandMsg := mkCommandMsg droneId command params ts
      let effects := [SendEffect.mk (info.address, info.port) commandMsg]
      match net with
      | .exn e => (Json.obj [("success", Json.bool false), ("error", Json.str e)], effects)
      | .reply r => (r.getD "result" (Json.obj [("success", Json.bool true)]), effects)

/-- The mutable flags of the `DroneController` object that `start_server`
touches. -/
structure ControllerState where
  running : Bool
deriving DecidableEq, Repr

/-- Result of attempting to bind the discovery socket: success, or an
exception with message `e` (for example the port being occupied). -/
inductive BindOutcome where
  | ok
  | err (e : String)

/-- `start_server` (lines 48 to 67): on a successful bind the running
flag is set and `True` is returned; any exception is caught, logged and
turned into a `False` return with the state untouched. -/
def start_server (bind : BindOutcome) (st : ControllerState) : Bool × ControllerState :=
  match bind with
  | .ok => (true, ControllerState.mk true)
  | .err _ => (false, st)

/-! ### Registry lemmas -/

theorem Registry.lookup_insert (reg : Registry) (k : Json) (r : DroneRecord) :
    (reg.insert k r).lookup k = some r := by
  simp [Registry.insert, Registry.lookup, List.find?_cons]

theorem Registry.countKey_insert (reg : Registry) (k : Json) (r : DroneRecord) :
    (reg.insert k r).countKey k = 1 := by
  simp only [Registry.insert, Registry.countKey, List.filter_cons, List.filter_filter]
  have h1 : (decide (k = k)) = true := by simp
  have h2 : ∀ kv : Json × DroneRecord, (decide (kv.1 = k) && decide (kv.1 ≠ k)) = false := by
    intro kv
    by_cases h : kv.1 = k <;> simp [h]
  simp [h1, h2]

theorem Registry.keys_nodup_insert (reg : Registry) (k : Json) (r : DroneRecord)
    (hnd : (reg.map Prod.fst).Nodup) :
    (((reg.insert k r).map Prod.fst)).Nodup := by
  simp only [Registry.insert, List.map_cons, List.nodup_cons]
  constructor
  · intro hmem
    rcases List.mem_map.mp hmem with ⟨kv, hkv, hfst⟩
    have := (List.mem_filter.mp hkv).2
    simp [hfst] at this
  · exact hnd.sublist ((List.filter_sublist reg).map Prod.fst)

/-! ### Claim theorems: registry, dispatcher and command path -/

/-- C1: a drone appears in the `get_discovered_drones` snapshot exactly
when it is in the registry with a last announce at most TTL (30 s) before
the call; records announced more than 30 s ago are evicted at read time,
so the surviving registry (equal to the returned mapping) never retains a
record older than the TTL. -/
theorem snapshot_mem_iff_within_ttl (reg : Registry) (now : ℚ) (k : Json) (r : DroneRecord) :
    (k, r) ∈ get_discovered_drones now reg ↔ ((k, r) ∈ reg ∧ now - r.last_seen ≤ 30) := by
  simp [get_discovered_drones, List.mem_filter, not_lt]

/-- C3 (counterexample): for an identifier absent from the registry,
`send_command_to_drone` returns the error string `Drone not found` with a
capital `D`, not the claimed `drone not found`; the network-effect trace
is empty. -/
theorem send_command_not_found_counterexample :
    send_command_to_drone [] (NetOutcome.exn "timed out") (Json.str "missing-id")
        "arm" Json.null "t0"
      = (Json.obj [("success", Json.bool false), ("error", Json.str "Drone not found")], []) ∧
    (Json.obj [("success", Json.bool false), ("error", Json.str "Drone not found")])
      ≠ Json.obj [("success", Json.bool false), ("error", Json.str "drone not found")] := by
  decide

/-- C3 (amended): for every drone identifier absent from the registry and
every command, parameters and network behaviour, `send_command_to_drone`
returns the structured failure with error string `Drone not found` and
performs no network I/O (the effect trace is empty). -/
theorem send_command_not_found (reg : Registry) (net : NetOutcome) (droneId : Json)
    (command : String) (params : Json) (ts : String)
    (h : reg.lookup droneId = none) :
    send_command_to_drone reg net droneId command params ts
      = (Json.obj [("success", Json.bool false), ("error", Json.str "Drone not found")], []) := by
  simp [send_command_to_drone, h]

theorem send_command_not_found_witness :
    ([] : Registry).lookup (Json.str "missing-id") = none ∧
    send_command_to_drone [] (NetOutcome.exn "x") (Json.str "missing-id") "arm" Json.null "t0"
      = (Json.obj [("success", Json.bool false), ("error", Json.str "Drone not found")], []) :=
  ⟨by decide,
   send_command_not_found [] (NetOutcome.exn "x") (Json.str "missing-id") "arm" Json.null "t0"
     (by decide)⟩

/-- C4: after two announces carrying the same truthy `drone_id` are
processed in sequence, the registry holds exactly one record for that
identifier, that record is the one built from the second announce (so its
address is the second sender's host: last write wins), and key uniqueness
of the registry is preserved. -/
theorem announce_last_write_wins (reg : Registry) (m1 m2 : Json) (a1 a2 : Addr)
    (t1 t2 : ℚ) (d : Json)
    (hnd : (reg.map Prod.fst).Nodup)
    (h1 : m1.get "drone_id" = some d) (h2 : m2.get "drone_id" = some d)
    (ht : d.truthy = true) :
    (handle_drone_announcement m2 a2 t2 (handle_drone_announcement m1 a1 t1 reg)).countKey d = 1 ∧
    (handle_drone_announcement m2 a2 t2 (handle_drone_announcement m1 a1 t1 reg)).lookup d
      = some (mkDroneRecord m2 a2 d t2) ∧
    (mkDroneRecord m2 a2 d t2).address = a2.1 ∧
    ((handle_drone_announcement m2 a2 t2 (handle_drone_announcement m1 a1 t1 reg)).map
        Prod.fst).Nodup := by
  have e1 : handle_drone_announcement m1 a1 t1 reg
      = reg.insert d (mkDroneRecord m1 a1 d t1) := by
    simp [handle_drone_announcement, h1, ht]
  have e2 : handle_drone_announcement m2 a2 t2 (reg.insert d (mkDroneRecord m1 a1 d t1))
      = (reg.insert d (mkDroneRecord m1 a1 d t1)).insert d (mkDroneRecord m2 a2 d t2) := by
    simp [handle_drone_announcement, h2, ht]
  rw [e1, e2]
  refine ⟨Registry.countKey_insert _ _ _, Registry.lookup_insert _ _ _, rfl, ?_⟩
  exact Registry.keys_nodup_insert _ _ _ (Registry.keys_nodup_insert _ _ _ hnd)

theorem announce_last_write_wins_witness :
    (([] : Registry).map Prod.fst).Nodup ∧
    (handle_drone_announcement (Json.obj [("drone_id", Json.str "d1")]) ("10.0.0.2", 777) 5
        (handle_drone_announcement (Json.obj [("drone_id", Json.str "d1")]) ("10.0.0.1", 777) 0
          [])).lookup (Json.str "d1")
      = some (mkDroneRecord (Json.obj [("drone_id", Json.str "d1")]) ("10.0.0.2", 777)
          (Json.str "d1") 5) :=
  ⟨by decide,
   (announce_last_write_wins [] (Json.obj [("drone_id", Json.str "d1")])
     (Json.obj [("drone_id", Json.str "d1")]) ("10.0.0.1", 777) ("10.0.0.2", 777) 0 5
     (Json.str "d1") List.nodup_nil rfl rfl rfl).2.1⟩

/-- C5 (counterexample): an inbound command message whose command name is
not one of the seven supported ones produces no result at all — the
handler falls through its `if` and no `command_response` is sent — rather
than the claimed failure result with error `unknown command`. -/
theorem unknown_command_counterexample :
    handle_drone_command (fun _ _ _ => Json.null)
      (Json.obj [("type", Json.str "command"), ("command", Json.str "fly_to_moon"),
                 ("target_drone", Json.str "d1")]) "t0" = none := by
  decide

/-- C5 (amended): for every inbound command message whose command name is
a string outside the seven supported commands, `_handle_drone_command`
silently ignores the message: no handler runs and no response datagram is
produced. -/
theorem unknown_command_silently_dropped (exec : String → Option Json → Json → Json)
    (msg : Json) (ts : String) (c : String)
    (h : msg.get "command" = some (Json.str c)) (hc : c ∉ command_handlers) :
    handle_drone_command exec msg ts = none := by
  simp [handle_drone_command, h, hc]

theorem unknown_command_silently_dropped_witness :
    (Json.obj [("command", Json.str "fly")]).get "command" = some (Json.str "fly") ∧
    "fly" ∉ command_handlers ∧
    handle_drone_command (fun _ _ _ => Json.null) (Json.obj [("command", Json.str "fly")]) "t1"
      = none :=
  ⟨by decide, by decide,
   unknown_command_silently_dropped (fun _ _ _ => Json.null)
     (Json.obj [("command", Json.str "fly")]) "t1" "fly" rfl (by decide)⟩

/-- C6: the address stored by announce ingestion is always the host part
of the datagram's socket source address, whatever the payload contains;
hence two announces arriving from the same socket source address store the
same address regardless of their payloads. -/
theorem announce_address_from_socket (m1 m2 : Json) (addr : Addr) (t1 t2 : ℚ)
    (reg1 reg2 : Registry) (d1 d2 : Json)
    (h1 : m1.get "drone_id" = some d1) (ht1 : d1.truthy = true)
    (h2 : m2.get "drone_id" = some d2) (ht2 : d2.truthy = true) :
    ∃ r1 r2,
      (handle_drone_announcement m1 addr t1 reg1).lookup d1 = some r1 ∧
      (handle_drone_announcement m2 addr t2 reg2).lookup d2 = some r2 ∧
      r1.address = addr.1 ∧ r2.address = addr.1 ∧ r1.address = r2.address := by
  refine ⟨mkDroneRecord m1 addr d1 t1, mkDroneRecord m2 addr d2 t2, ?_, ?_, rfl, rfl, rfl⟩
  · simp [handle_drone_announcement, h1, ht1, Registry.lookup_insert]
  · simp [handle_drone_announcement, h2, ht2, Registry.lookup_insert]

theorem announce_address_from_socket_witness :
    ∃ r1 r2,
      (handle_drone_announcement
          (Json.obj [("drone_id", Json.str "d1"), ("address", Json.str "6.6.6.6")])
          ("10.0.0.9", 4242) 0 []).lookup (Json.str "d1") = some r1 ∧
      (handle_drone_announcement (Json.obj [("drone_id", Json.str "d2")])
          ("10.0.0.9", 4242) 1 []).lookup (Json.str "d2") = some r2 ∧
      r1.address = "10.0.0.9" ∧ r2.address = "10.0.0.9" ∧ r1.address = r2.address :=
  announce_address_from_socket
    (Json.obj [("drone_id", Json.str "d1"), ("address", Json.str "6.6.6.6")])
    (Json.obj [("drone_id", Json.str "d2")]) ("10.0.0.9", 4242) 0 1 [] []
    (Json.str "d1") (Json.str "d2") rfl rfl rfl rfl

/-- C7: when the target drone is present in the registry and the network
exchange fails in any way (timeout, socket error, malformed reply — all
surfacing as a caught exception with message `e`), `send_command_to_drone`
returns the structured failure result rather than raising; totality of the
definition reflects that no exception escapes to the caller. -/
theorem send_command_net_error_structured (reg : Registry) (droneId : Json)
    (command : String) (params : Json) (ts e : String) (info : DroneRecord)
    (h : reg.lookup droneId = some info) :
    (send_command_to_drone reg (NetOutcome.exn e) droneId command params ts).1
      = Json.obj [("success", Json.bool false), ("error", Json.str e)] := by
  simp [send_command_to_drone, h]

theorem send_command_net_error_structured_witness :
    (handle_drone_announcement (Json.obj [("drone_id", Json.str "d1")]) ("10.0.0.1", 777) 0
        []).lookup (Json.str "d1")
      = some (mkDroneRecord (Json.obj [("drone_id", Json.str "d1")]) ("10.0.0.1", 777)
          (Json.str "d1") 0) ∧
    (send_command_to_drone
        (handle_drone_announcement (Json.obj [("drone_id", Json.str "d1")]) ("10.0.0.1", 777) 0 [])
        (NetOutcome.exn "timed out") (Json.str "d1") "takeoff"
        (Json.obj [("altitude", Json.str "15")]) "t0").1
      = Json.obj [("success", Json.bool false), ("error", Json.str "timed out")] :=
  ⟨by decide,
   send_command_net_error_structured
     (handle_drone_announcement (Json.obj [("drone_id", Json.str "d1")]) ("10.0.0.1", 777) 0 [])
     (Json.str "d1") "takeoff" (Json.obj [("altitude", Json.str "15")]) "t0" "timed out"
     (mkDroneRecord (Json.obj [("drone_id", Json.str "d1")]) ("10.0.0.1", 777) (Json.str "d1") 0)
     (by decide)⟩

/-- C8 (counterexample): announce ingestion does not merge partial field
sets into the existing record.  A first announce stores name `Alpha` and
battery voltage 124; a second announce for the same drone that omits both
fields leaves a record whose name has been reset to the drone id and whose
battery voltage has been reset to the default 0, losing the previous
values. -/
theorem upsert_not_merge_counterexample :
    ((handle_drone_announcement
        (Json.obj [("drone_id", Json.str "d1"), ("name", Json.str "Alpha"),
                   ("battery_voltage", Json.num 124)])
        ("10.0.0.7", 40000) 0 []).lookup (Json.str "d1")).map DroneRecord.name
      = some (Json.str "Alpha") ∧
    ((handle_drone_announcement (Json.obj [("drone_id", Json.str "d1")]) ("10.0.0.7", 40000) 10
        (handle_drone_announcement
          (Json.obj [("drone_id", Json.str "d1"), ("name", Json.str "Alpha"),
                     ("battery_voltage", Json.num 124)])
          ("10.0.0.7", 40000) 0 [])).lookup (Json.str "d1")).map DroneRecord.name
      = some (Json.str "d1") ∧
    ((handle_drone_announcement (Json.obj [("drone_id", Json.str "d1")]) ("10.0.0.7", 40000) 10
        (handle_drone_announcement
          (Json.obj [("drone_id", Json.str "d1"), ("name", Json.str "Alpha"),
                     ("battery_voltage", Json.num 124)])
          ("10.0.0.7", 40000) 0 [])).lookup (Json.str "d1")).map DroneRecord.battery_voltage
      = some (Json.num 0) := by
  decide

/-- C8 (amended): ingesting an announce for an identifier that already has
a record replaces that record wholesale: supplied fields are taken from
the announce and unsupplied fields are reset to their documented defaults
(name to the drone id, port to 14550, status, flight mode and firmware to
`unknown`, battery voltage and signal strength to 0, gps fix and armed to
false); `last_seen` is always refreshed to the time of the upsert. -/
theorem upsert_replaces_record (reg : Registry) (msg : Json) (addr : Addr) (now : ℚ) (d : Json)
    (hold : (reg.lookup d).isSome)
    (hd : msg.get "drone_id" = some d) (ht : d.truthy = true) :
    (handle_drone_announcement msg addr now reg).lookup d = some (mkDroneRecord msg addr d now) ∧
    (mkDroneRecord msg addr d now).last_seen = now := by
  refine ⟨?_, rfl⟩
  simp [handle_drone_announcement, hd, ht, Registry.lookup_insert]

theorem upsert_replaces_record_witness :
    ((handle_drone_announcement
        (Json.obj [("drone_id", Json.str "d1"), ("name", Json.str "Alpha")])
        ("10.0.0.7", 40000) 0 []).lookup (Json.str "d1")).isSome ∧
    (handle_drone_announcement (Json.obj [("drone_id", Json.str "d1")]) ("10.0.0.7", 40000) 10
        (handle_drone_announcement
          (Json.obj [("drone_id", Json.str "d1"), ("name", Json.str "Alpha")])
          ("10.0.0.7", 40000) 0 [])).lookup (Json.str "d1")
      = some (mkDroneRecord (Json.obj [("drone_id", Json.str "d1")]) ("10.0.0.7", 40000)
          (Json.str "d1") 10) :=
  ⟨by decide,
   (upsert_replaces_record
     (handle_drone_announcement
       (Json.obj [("drone_id", Json.str "d1"), ("name", Json.str "Alpha")])
       ("10.0.0.7", 40000) 0 [])
     (Json.obj [("drone_id", Json.str "d1")]) ("10.0.0.7", 40000) 10 (Json.str "d1")
     rfl rfl rfl).1⟩

/-- C9: `start_server` returns a boolean — `true` with the running flag
set when the bind succeeds, and `false` (without raising: the function is
total) when the bind fails, leaving the state untouched so the hosting
application can continue without fleet features. -/
theorem start_server_returns_bool (st : ControllerState) (e : String) :
    (start_server BindOutcome.ok st).1 = true ∧
    (start_server BindOutcome.ok st).2.running = true ∧
    (start_server (BindOutcome.err e) st).1 = false ∧
    (start_server (BindOutcome.err e) st).2 = st := by
  simp [start_server]

/-- C10: an announce whose `drone_id` field is absent, null or the empty
string leaves the registry completely unchanged. -/
theorem announce_missing_id_noop (msg : Json) (addr : Addr) (now : ℚ) (reg : Registry)
    (h : msg.get "drone_id" = none ∨ msg.get "drone_id" = some Json.null ∨
         msg.get "drone_id" = some (Json.str "")) :
    handle_drone_announcement msg addr now reg = reg := by
  rcases h with h | h | h <;> simp [handle_drone_announcement, h, Json.truthy]

theorem announce_missing_id_noop_witness :
    ((Json.obj [("type", Json.str "drone_announce"), ("drone_id", Json.str "")]).get "drone_id"
        = none ∨
      (Json.obj [("type", Json.str "drone_announce"), ("drone_id", Json.str "")]).get "drone_id"
        = some Json.null ∨
      (Json.obj [("type", Json.str "drone_announce"), ("drone_id", Json.str "")]).get "drone_id"
        = some (Json.str "")) ∧
    handle_drone_announcement
      (Json.obj [("type", Json.str "drone_announce"), ("drone_id", Json.str "")])
      ("10.0.0.3", 999) 7 [] = [] :=
  ⟨Or.inr (Or.inr (by decide)),
   announce_missing_id_noop
     (Json.obj [("type", Json.str "drone_announce"), ("drone_id", Json.str "")])
     ("10.0.0.3", 999) 7 [] (Or.inr (Or.inr (by decide)))⟩

/-! ### Wire codec

The send path serializes the command dict with `json.dumps` (default
separators, `ensure_ascii=True`) and the listener deserializes with
`json.loads`.  Every message this subsystem exchanges is a JSON object of
depth at most two (an object whose values are primitives, except for the
`params` member which is an object of primitives), so the codec is
modelled on exactly that grammar: `jsonDumps` reproduces the `json.dumps`
output for such documents and `jsonLoads` parses it back. -/

/-- The character for a decimal digit `d < 10`. -/
def digitCh (d : Nat) : Char := Char.ofNat (48 + d)

/-- Decimal rendering of a natural number, most significant digit first,
as `json.dumps` prints it. -/
def renderNat (n : Nat) : List Char :=
  if n < 10 then [digitCh n] else renderNat (n / 10) ++ [digitCh (n % 10)]
termination_by n
decreasing_by omega

/-- Decimal rendering of an integer (minus sign for negatives). -/
def renderIntL (n : Int) : List Char :=
  if n < 0 then '-' :: renderNat n.natAbs else renderNat n.natAbs

/-- Rendering of a string literal.  Valid strings (see `validStr`) contain
no quote, backslash or non-printable-ASCII character, so `json.dumps`
emits them without escapes. -/
def renderStrL (s : String) : List Char := '"' :: (s.data ++ ['"'])

/-- Rendering of a primitive (non-object) JSON value. -/
def renderPrimL : Json → List Char
  | .null => "null".data
  | .bool b => if b then "true".data else "false".data
  | .num n => renderIntL n
  | .str s => renderStrL s
  | .obj _ => []

/-- Rendering of the members of an object of primitives, including the
closing brace, with the `json.dumps` default separators. -/
def renderFlatMembersL : List (String × Json) → List Char
  | [] => ['\x7d']
  | [(k, v)] => renderStrL k ++ ':' :: ' ' :: (renderPrimL v ++ ['\x7d'])
  | (k, v) :: kv2 :: rest =>
      renderStrL k ++ ':' :: ' ' ::
        (renderPrimL v ++ ',' :: ' ' :: renderFlatMembersL (kv2 :: rest))

/-- Rendering of a member value of the top-level object: a primitive, or
an object of primitives. -/
def renderValL : Json → List Char
  | .obj kvs => '\x7b' :: renderFlatMembersL kvs
  | p => renderPrimL p

/-- Rendering of the members of the top-level object, including the
closing brace. -/
def renderTopMembersL : List (String × Json) → List Char
  | [] => ['\x7d']
  | [(k, v)] => renderStrL k ++ ':' :: ' ' :: (renderValL v ++ ['\x7d'])
  | (k, v) :: kv2 :: rest =>
      renderStrL k ++ ':' :: ' ' ::
        (renderValL v ++ ',' :: ' ' :: renderTopMembersL (kv2 :: rest))

/-- Rendering of a whole document of depth at most two. -/
def renderTopL : Json → List Char
  | .obj kvs => '\x7b' :: renderTopMembersL kvs
  | p => renderPrimL p

/-- `json.dumps` on the documents this subsystem sends. -/
def jsonDumps (j : Json) : String := String.mk (renderTopL j)

/-- Parser for the body of a string literal after the opening quote:
collects characters up to the closing quote. -/
def parseStrBody : List Char → Option (List Char × List Char)
  | [] => none
  | c :: cs =>
      if c = '"' then some ([], cs)
      else (parseStrBody cs).map (fun p => (c :: p.1, p.2))

/-- Parser for a maximal run of decimal digits, with accumulator. -/
def parseDigitsAcc : List Char → Nat → Nat × List Char
  | [], acc => (acc, [])
  | c :: cs, acc =>
      if c.isDigit then parseDigitsAcc cs (acc * 10 + (c.toNat - 48)) else (acc, c :: cs)

/-- Parser for a nonempty run of decimal digits. -/
def parseNum : List Char → Option (Nat × List Char)
  | [] => none
  | c :: cs => if c.isDigit then some (parseDigitsAcc (c :: cs) 0) else none

/-- Parser for a primitive JSON value. -/
def parsePrim : List Char → Option (Json × List Char)
  | [] => none
  | c :: rest =>
      if c = '"' then (parseStrBody rest).map (fun p => (Json.str (String.mk p.1), p.2))
      else if c = '-' then (parseNum rest).map (fun p => (Json.num (-(p.1 : Int)), p.2))
      else if c.isDigit then (parseNum (c :: rest)).map (fun p => (Json.num (p.1 : Int), p.2))
      else if (c :: rest).take 4 = ['n', 'u', 'l', 'l'] then some (Json.null, (c :: rest).drop 4)
      else if (c :: rest).take 4 = ['t', 'r', 'u', 'e'] then
        some (Json.bool true, (c :: rest).drop 4)
      else if (c :: rest).take 5 = ['f', 'a', 'l', 's', 'e'] then
        some (Json.bool false, (c :: rest).drop 5)
      else none

/-- Parser for the members of an object of primitives after the opening
brace, consuming the closing brace.  The fuel argument bounds the number
of members; the input length is always a sufficient bound. -/
def parseFlatBody : Nat → List Char → Option (List (String × Json) × List Char)
  | 0, _ => none
  | f + 1, cs =>
      match cs with
      | [] => none
      | c :: rest =>
          if c = '\x7d' then some ([], rest)
          else if c = '"' then
            match parseStrBody rest with
            | some (k, a :: b :: r2) =>
                if a = ':' ∧ b = ' ' then
                  match parsePrim r2 with
                  | some (v, d :: r3) =>
                      if d = '\x7d' then some ([(String.mk k, v)], r3)
                      else if d = ',' then
                        match r3 with
                        | e :: r4 =>
                            if e = ' ' then
                              (parseFlatBody f r4).map (fun p => ((String.mk k, v) :: p.1, p.2))
                            else none
                        | [] => none
                      else none
                  | _ => none
                else none
            | _ => none
          else none

/-- Parser for a member value of the top-level object: a primitive, or an
object of primitives. -/
def parseValF : Nat → List Char → Option (Json × List Char)
  | f, c :: rest =>
      if c = '\x7b' then (parseFlatBody f rest).map (fun p => (Json.obj p.1, p.2))
      else parsePrim (c :: rest)
  | _, [] => none

/-- Parser for the members of the top-level object after the opening
brace, consuming the closing brace. -/
def parseTopBody : Nat → List Char → Option (List (String × Json) × List Char)
  | 0, _ => none
  | f + 1, cs =>
      match cs with
      | [] => none
      | c :: rest =>
          if c = '\x7d' then some ([], rest)
          else if c = '"' then
            match parseStrBody rest with
            | some (k, a :: b :: r2) =>
                if a = ':' ∧ b = ' ' then
                  match parseValF f r2 with
                  | some (v, d :: r3) =>
                      if d = '\x7d' then some ([(String.mk k, v)], r3)
                      else if d = ',' then
                        match r3 with
                        | e :: r4 =>
                            if e = ' ' then
                              (parseTopBody f r4).map (fun p => ((String.mk k, v) :: p.1, p.2))
                            else none
                        | [] => none
                      else none
                  | _ => none
                else none
            | _ => none
          else none

/-- `json.loads` on the documents this subsystem exchanges, requiring the
whole input to be consumed. -/
def jsonLoads (s : String) : Option Json :=
  match s.data with
  | [] => none
  | c :: rest =>
      if c = '\x7b' then
        match parseTopBody s.length rest with
        | some (kvs, []) => some (Json.obj kvs)
        | _ => none
      else
        match parsePrim (c :: rest) with
        | some (j, []) => some j
        | _ => none

/-! ### Codec validity predicates -/

/-- Characters `json.dumps` emits verbatim inside string literals (no
quote, no backslash, printable ASCII). -/
def validChar (c : Char) : Bool :=
  c ≠ '"' && c ≠ '\\' && 32 ≤ c.toNat && c.toNat ≤ 126

/-- Strings rendered without escapes. -/
def validStr (s : String) : Bool := s.data.all validChar

/-- Validity of a primitive member value (objects excluded). -/
def validPrim : Json → Bool
  | .str s => validStr s
  | .obj _ => false
  | _ => true

/-- Validity of the members of an object of primitives. -/
def validKVs (kvs : List (String × Json)) : Bool :=
  kvs.all (fun kv => validStr kv.1 && validPrim kv.2)

/-- Validity of a top-level member value: a primitive, or an object of
primitives. -/
def validVal : Json → Bool
  | .obj kvs => validKVs kvs
  | p => validPrim p

/-- Validity of the members of the top-level object. -/
def validTopKVs (kvs : List (String × Json)) : Bool :=
  kvs.all (fun kv => validStr kv.1 && validVal kv.2)

/-- Character lists that do not begin with a decimal digit (so a maximal
digit run cannot leak into them). -/
def notDigitStart : List Char → Bool
  | [] => true
  | c :: _ => !c.isDigit

/-- Character lists that are empty or begin with a member separator or
closing brace: exactly what may follow a rendered member value. -/
def sepStart : List Char → Bool
  | [] => true
  | c :: _ => c = ',' || c = '\x7d'

/-! ### String and digit parsing lemmas -/

theorem parseStrBody_render (l rest : List Char) (h : ∀ c ∈ l, ¬ c = '"') :
    parseStrBody (l ++ '"' :: rest) = some (l, rest) := by
  induction l with
  | nil => simp [parseStrBody]
  | cons c l ih =>
      have hc : ¬ c = '"' := h c (List.mem_cons_self c l)
      have htail : ∀ x ∈ l, ¬ x = '"' := fun x hx => h x (List.mem_cons_of_mem c hx)
      simp [parseStrBody, hc, ih htail]

theorem digitCh_isDigit (d : Nat) (h : d < 10) : (digitCh d).isDigit = true := by
  interval_cases d <;> decide

theorem digitCh_toNat (d : Nat) (h : d < 10) : (digitCh d).toNat - 48 = d := by
  interval_cases d <;> decide

theorem isDigit_ne_quote (c : Char) (h : c.isDigit = true) : ¬ c = '"' := by
  intro e; rw [e] at h; exact absurd h (by decide)

theorem isDigit_ne_minus (c : Char) (h : c.isDigit = true) : ¬ c = '-' := by
  intro e; rw [e] at h; exact absurd h (by decide)

theorem isDigit_ne_lbrace (c : Char) (h : c.isDigit = true) : ¬ c = '\x7b' := by
  intro e; rw [e] at h; exact absurd h (by decide)

theorem sepStart_notDigit (rest : List Char) (h : sepStart rest = true) :
    notDigitStart rest = true := by
  cases rest with
  | nil => rfl
  | cons c cs =>
      simp only [sepStart, Bool.or_eq_true, decide_eq_true_eq] at h
      rcases h with h | h
      · rw [h]; rfl
      · rw [h]; rfl

/-- Power of ten matching the digit count of `n`, used to specify the
accumulator of `parseDigitsAcc`. -/
def tenPow (n : Nat) : Nat := if n < 10 then 10 else tenPow (n / 10) * 10
termination_by n
decreasing_by omega

theorem parseDigitsAcc_render (n : Nat) : ∀ acc (rest : List Char),
    parseDigitsAcc (renderNat n ++ rest) acc = parseDigitsAcc rest (acc * tenPow n + n) := by
  induction n using Nat.strong_induction_on with
  | _ n ih =>
      intro acc rest
      by_cases h : n < 10
      · rw [renderNat, if_pos h, tenPow, if_pos h]
        simp [parseDigitsAcc, digitCh_isDigit n h, digitCh_toNat n h]
      · rw [renderNat, if_neg h, tenPow, if_neg h, List.append_assoc,
            ih (n / 10) (by omega), List.singleton_append]
        have h10 : n % 10 < 10 := by omega
        simp only [parseDigitsAcc, digitCh_isDigit (n % 10) h10, if_pos]
        rw [digitCh_toNat (n % 10) h10]
        congr 1
        have : n / 10 * 10 + n % 10 = n := by omega
        ring_nf
        omega

theorem parseDigitsAcc_stop (rest : List Char) (acc : Nat) (h : notDigitStart rest = true) :
    parseDigitsAcc rest acc = (acc, rest) := by
  cases rest with
  | nil => rfl
  | cons c cs =>
      simp only [notDigitStart, Bool.not_eq_true'] at h
      simp [parseDigitsAcc, h]

theorem renderNat_head (n : Nat) :
    ∃ c cs, renderNat n = c :: cs ∧ c.isDigit = true := by
  induction n using Nat.strong_induction_on with
  | _ n ih =>
      by_cases h : n < 10
      · exact ⟨digitCh n, [], by rw [renderNat, if_pos h], digitCh_isDigit n h⟩
      · obtain ⟨c, cs, hc, hd⟩ := ih (n / 10) (by omega)
        exact ⟨c, cs ++ [digitCh (n % 10)], by rw [renderNat, if_neg h, hc]; rfl, hd⟩

theorem parseNum_render (n : Nat) (rest : List Char) (h : notDigitStart rest = true) :
    parseNum (renderNat n ++ rest) = some (n, rest) := by
  obtain ⟨c, cs, hc, hd⟩ := renderNat_head n
  rw [hc, List.cons_append]
  simp only [parseNum, hd, if_pos]
  rw [← List.cons_append, ← hc, parseDigitsAcc_render n 0 rest,
      parseDigitsAcc_stop rest _ h]
  simp

theorem strMk_data (s : String) : String.mk s.data = s := rfl

theorem validStr_no_quote (s : String) (h : validStr s = true) : ∀ c ∈ s.data, ¬ c = '"' := by
  intro c hc
  have hv := List.all_eq_true.mp h c hc
  simp only [validChar, Bool.and_eq_true, decide_eq_true_eq] at hv
  exact hv.1.1.1

/-! ### Primitive value round-trip -/

theorem parsePrim_render (p : Json) (rest : List Char) (hv : validPrim p = true)
    (hr : sepStart rest = true) :
    parsePrim (renderPrimL p ++ rest) = some (p, rest) := by
  cases p with
  | null => rfl
  | bool b => cases b <;> rfl
  | str s =>
      have hq := validStr_no_quote s (by simpa [validPrim] using hv)
      rw [renderPrimL, renderStrL, List.cons_append, List.append_assoc,
          List.singleton_append]
      simp only [parsePrim, if_pos rfl]
      rw [parseStrBody_render s.data rest hq]
      simp [strMk_data]
  | num n =>
      have hnd := sepStart_notDigit rest hr
      rw [renderPrimL, renderIntL]
      by_cases hn : n < 0
      · rw [if_pos hn, List.cons_append]
        simp only [parsePrim, if_neg (by decide : ¬ ('-' : Char) = '"'), if_pos rfl]
        rw [parseNum_render n.natAbs rest hnd]
        simp only [if_true, Option.map_some', Option.some.injEq, Prod.mk.injEq, Json.num.injEq]
        exact ⟨by omega, trivial⟩
      · rw [if_neg hn]
        obtain ⟨c, cs, hc, hd⟩ := renderNat_head n.natAbs
        rw [hc, List.cons_append]
        simp only [parsePrim, if_neg (isDigit_ne_quote c hd), if_neg (isDigit_ne_minus c hd),
          hd, if_pos]
        rw [← List.cons_append, ← hc, parseNum_render n.natAbs rest hnd]
        simp only [Option.map_some', Option.some.injEq, Prod.mk.injEq, Json.num.injEq]
        exact ⟨by omega, trivial⟩
  | obj kvs => exact absurd hv (by simp [validPrim])

/-! ### Object body round-trip -/

theorem parseFlat_render (kvs : List (String × Json)) : ∀ (f : Nat) (rest : List Char),
    validKVs kvs = true → (renderFlatMembersL kvs).length + rest.length ≤ f →
    parseFlatBody f (renderFlatMembersL kvs ++ rest) = some (kvs, rest) := by
  induction kvs with
  | nil =>
      intro f rest _ hf
      simp only [renderFlatMembersL, List.length_cons, List.length_nil] at hf
      cases f with
      | zero => omega
      | succ f => simp [renderFlatMembersL, parseFlatBody]
  | cons kv tail ih =>
      obtain ⟨k, v⟩ := kv
      intro f rest hv hf
      simp only [validKVs, List.all_cons, Bool.and_eq_true] at hv
      obtain ⟨⟨hvk, hvv⟩, hvt⟩ := hv
      have hkq := validStr_no_quote k hvk
      cases tail with
      | nil =>
          simp only [renderFlatMembersL, renderStrL, List.length_append, List.length_cons,
            List.length_nil] at hf
          cases f with
          | zero => omega
          | succ f =>
              simp only [renderFlatMembersL, renderStrL, List.cons_append, List.append_assoc,
                List.singleton_append, List.nil_append]
              simp only [parseFlatBody]
              rw [parseStrBody_render k.data _ hkq]
              simp [parsePrim_render v ('\x7d' :: rest) hvv (by rfl), strMk_data]
      | cons kv2 tail' =>
          simp only [renderFlatMembersL, renderStrL, List.length_append, List.length_cons] at hf
          cases f with
          | zero => omega
          | succ f =>
              simp only [renderFlatMembersL, renderStrL, List.cons_append, List.append_assoc,
                List.singleton_append, List.nil_append]
              simp only [parseFlatBody]
              rw [parseStrBody_render k.data _ hkq]
              simp [parsePrim_render v (',' :: ' ' :: (renderFlatMembersL (kv2 :: tail') ++ rest))
                  hvv (by rfl),
                ih f rest (by simpa [validKVs] using hvt) (by omega), strMk_data]

theorem renderPrimL_head (p : Json) (hv : validPrim p = true) :
    ∃ c cs, renderPrimL p = c :: cs ∧ ¬ c = '\x7b' := by
  cases p with
  | null => refine ⟨'n', "ull".data, by decide, by decide⟩
  | bool b =>
      cases b
      · refine ⟨'f', "alse".data, by decide, by decide⟩
      · refine ⟨'t', "rue".data, by decide, by decide⟩
  | str s => exact ⟨'"', s.data ++ ['"'], rfl, by decide⟩
  | num n =>
      rw [renderPrimL, renderIntL]
      by_cases hn : n < 0
      · exact ⟨'-', _, by rw [if_pos hn], by decide⟩
      · obtain ⟨c, cs, hc, hd⟩ := renderNat_head n.natAbs
        exact ⟨c, cs, by rw [if_neg hn, hc], isDigit_ne_lbrace c hd⟩
  | obj kvs => exact absurd hv (by simp [validPrim])

theorem parseValF_render_prim (p : Json) (f : Nat) (rest : List Char)
    (hv : validPrim p = true) (hr : sepStart rest = true)
    (hp : renderValL p = renderPrimL p) :
    parseValF f (renderValL p ++ rest) = some (p, rest) := by
  obtain ⟨c, cs, hc, hne⟩ := renderPrimL_head p hv
  rw [hp, hc, List.cons_append]
  simp only [parseValF, if_neg hne]
  rw [← List.cons_append, ← hc]
  exact parsePrim_render p rest hv hr

theorem parseValF_render (v : Json) (f : Nat) (rest : List Char)
    (hv : validVal v = true) (hr : sepStart rest = true)
    (hf : (renderValL v).length + rest.length ≤ f) :
    parseValF f (renderValL v ++ rest) = some (v, rest) := by
  cases v with
  | obj kvs =>
      have hkvs : validKVs kvs = true := by simpa [validVal] using hv
      simp only [renderValL, List.length_cons] at hf
      simp only [renderValL, List.cons_append]
      simp only [parseValF, if_pos rfl]
      rw [parseFlat_render kvs f rest hkvs (by omega)]
      simp
  | null => exact parseValF_render_prim _ f rest (by simpa [validVal] using hv) hr rfl
  | bool b => exact parseValF_render_prim _ f rest (by simpa [validVal] using hv) hr rfl
  | num n => exact parseValF_render_prim _ f rest (by simpa [validVal] using hv) hr rfl
  | str s => exact parseValF_render_prim _ f rest (by simpa [validVal] using hv) hr rfl

theorem parseTop_render (kvs : List (String × Json)) : ∀ (f : Nat) (rest : List Char),
    validTopKVs kvs = true → (renderTopMembersL kvs).length + rest.length ≤ f →
    parseTopBody f (renderTopMembersL kvs ++ rest) = some (kvs, rest) := by
  induction kvs with
  | nil =>
      intro f rest _ hf
      simp only [renderTopMembersL, List.length_cons, List.length_nil] at hf
      cases f with
      | zero => omega
      | succ f => simp [renderTopMembersL, parseTopBody]
  | cons kv tail ih =>
      obtain ⟨k, v⟩ := kv
      intro f rest hv hf
      simp only [validTopKVs, List.all_cons, Bool.and_eq_true] at hv
      obtain ⟨⟨hvk, hvv⟩, hvt⟩ := hv
      have hkq := validStr_no_quote k hvk
      cases tail with
      | nil =>
          simp only [renderTopMembersL, renderStrL, List.length_append, List.length_cons,
            List.length_nil] at hf
          cases f with
          | zero => omega
          | succ f =>
              simp only [renderTopMembersL, renderStrL, List.cons_append, List.append_assoc,
                List.singleton_append, List.nil_append]
              simp only [parseTopBody]
              rw [parseStrBody_render k.data _ hkq]
              simp [parseValF_render v f ('\x7d' :: rest) hvv (by rfl)
                  (by simp only [List.length_cons]; omega),
                strMk_data]
      | cons kv2 tail' =>
          simp only [renderTopMembersL, renderStrL, List.length_append, List.length_cons] at hf
          cases f with
          | zero => omega
          | succ f =>
              simp only [renderTopMembersL, renderStrL, List.cons_append, List.append_assoc,
                List.singleton_append, List.nil_append]
              simp only [parseTopBody]
              rw [parseStrBody_render k.data _ hkq]
              simp [parseValF_render v f
                  (',' :: ' ' :: (renderTopMembersL (kv2 :: tail') ++ rest)) hvv (by rfl)
                  (by simp only [List.length_cons, List.length_append]; omega),
                ih f rest (by simpa [validTopKVs] using hvt) (by omega), strMk_data]

theorem jsonLoads_jsonDumps_obj (kvs : List (String × Json)) (h : validTopKVs kvs = true) :
    jsonLoads (jsonDumps (Json.obj kvs)) = some (Json.obj kvs) := by
  have hstep : jsonLoads (jsonDumps (Json.obj kvs))
      = (match parseTopBody (('\x7b' :: renderTopMembersL kvs).length)
            (renderTopMembersL kvs) with
         | some (kvs, []) => some (Json.obj kvs)
         | _ => none) := rfl
  have hrt := parseTop_render kvs ((renderTopMembersL kvs).length + 1) [] h
    (by simp)
  rw [List.append_nil] at hrt
  rw [hstep, List.length_cons, hrt]

/-! ### CommandMessage and the codec round-trip -/

/-- A command message as the data model describes it: command name,
target drone identifier, parameter mapping (string keys, primitive
values), timestamp.  The message kind tag is fixed to `command` by the
send path. -/
structure CommandMessage where
  command : String
  target_drone : String
  params : List (String × Json)
  timestamp : String
deriving DecidableEq, Repr

/-- The wire dict the send path builds for a `CommandMessage`
(`drone_controller.py` lines 146 to 152). -/
def CommandMessage.toWire (m : CommandMessage) : Json :=
  mkCommandMsg (Json.str m.target_drone) m.command (Json.obj m.params) m.timestamp

/-- `json.dumps(command_msg).encode()` on the send path (line 159). -/
def encodeCommandMessage (m : CommandMessage) : String := jsonDumps m.toWire

/-- The listener's receive path: `json.loads(data.decode())` (line 81)
followed by the field reads of the command handler; a payload that is not
a well-formed command message yields `none`. -/
def decodeCommandMessage (s : String) : Option CommandMessage :=
  match jsonLoads s with
  | some j =>
      match j.get "type", j.get "command", j.get "target_drone", j.get "params",
          j.get "timestamp" with
      | some (Json.str "command"), some (Json.str c), some (Json.str t), some (Json.obj p),
          some (Json.str ts) => some (CommandMessage.mk c t p ts)
      | _, _, _, _, _ => none
  | none => none

/-- A valid `CommandMessage`: its strings are printable ASCII without
quotes or backslashes (so `json.dumps` emits them verbatim) and its
parameter mapping carries primitive values, as the data model specifies. -/
def CommandMessage.valid (m : CommandMessage) : Bool :=
  validStr m.command && validStr m.target_drone && validStr m.timestamp && validKVs m.params

/-- C2: encoding a valid `CommandMessage` with the send-path serializer
and decoding the resulting bytes with the listener's deserializer yields
a message equal to the original (round-trip law of the JSON text codec). -/
theorem encode_decode_roundtrip (m : CommandMessage) (h : m.valid = true) :
    decodeCommandMessage (encodeCommandMessage m) = some m := by
  obtain ⟨c, t, p, ts⟩ := m
  simp only [CommandMessage.valid, Bool.and_eq_true] at h
  obtain ⟨⟨⟨hc, ht⟩, hts⟩, hp⟩ := h
  have hwire : CommandMessage.toWire ⟨c, t, p, ts⟩
      = Json.obj [("type", Json.str "command"), ("command", Json.str c),
          ("target_drone", Json.str t), ("params", Json.obj p),
          ("timestamp", Json.str ts)] := by
    simp only [CommandMessage.toWire, mkCommandMsg]
    cases p <;> simp [Json.truthy]
  have hvalid : validTopKVs [("type", Json.str "command"), ("command", Json.str c),
      ("target_drone", Json.str t), ("params", Json.obj p),
      ("timestamp", Json.str ts)] = true := by
    simp only [validTopKVs, List.all_cons, List.all_nil, Bool.and_eq_true, validVal,
      validPrim, hc, ht, hts, hp, and_true, true_and]
    all_goals decide
  simp only [encodeCommandMessage, hwire, decodeCommandMessage,
    jsonLoads_jsonDumps_obj _ hvalid]
  simp [Json.get]

theorem encode_decode_roundtrip_witness :
    CommandMessage.valid
        ⟨"takeoff", "drone-1", [("altitude", Json.str "15"), ("armed", Json.bool false)],
          "2025-01-01T00:00:00"⟩ = true ∧
    decodeCommandMessage (encodeCommandMessage
        ⟨"takeoff", "drone-1", [("altitude", Json.str "15"), ("armed", Json.bool false)],
          "2025-01-01T00:00:00"⟩)
      = some ⟨"takeoff", "drone-1", [("altitude", Json.str "15"), ("armed", Json.bool false)],
          "2025-01-01T00:00:00"⟩ :=
  ⟨by decide,
   encode_decode_roundtrip
     ⟨"takeoff", "drone-1", [("altitude", Json.str "15"), ("armed", Json.bool false)],
       "2025-01-01T00:00:00"⟩ (by decide)⟩
